import Mathlib

/-!
Shallow embedding of the conversational backend (chat/TTS orchestration core).

The data model mirrors the SQLAlchemy models (`models/conversation.py`,
`models/system_prompt.py`); the store operations mirror
`core/services/chat_service.py` and `core/services/system_prompt_service.py`;
the `/send` pipeline mirrors `api/chat_api.py::send_message`; the agent mirrors
`core/agent.py`; the TTS/emotion path mirrors `api/tts_api.py` and
`emotion_model/emotion_enhance.py`.

Database rows are modelled as lists in insertion order; primary keys are
assigned from monotone counters, so creation order coincides with id order.
External adapters (LLM over HTTP, TTS engine, emotion-classifier model) are
modelled by explicit outcome parameters: each Lean function is a pure function
of the adapter outcome, exactly following the branching of the Python code.
-/

namespace AIAgentSpec

/-- A row of the `conversations` table (`models/conversation.py::Conversation`).
Timestamps are elided: ordering facts are stated via insertion order, which the
code keeps aligned with `created_at` (ids are monotone in creation time). -/
structure Conversation where
  id : Nat
  user_id : Nat
  title : Option String
  system_prompt : Option String
  deriving Repr, DecidableEq

/-- A row of the `messages` table (`models/conversation.py::Message`). -/
structure Message where
  id : Nat
  conversation_id : Nat
  role : String
  content : String
  deriving Repr, DecidableEq

/-- A row of the `system_prompts` table (`models/system_prompt.py`). -/
structure SystemPromptRec where
  id : Nat
  user_id : Nat
  name : String
  content : String
  is_active : Bool
  deriving Repr, DecidableEq

/-- The persistent store: tables in insertion order plus fresh-id counters. -/
structure DBState where
  conversations : List Conversation
  messages : List Message
  prompts : List SystemPromptRec
  nextConvId : Nat
  nextMsgId : Nat
  deriving Repr

/-- Well-formedness the database engine maintains: every existing id is below
the fresh-id counter (auto-increment primary keys). -/
def DBState.wfb (st : DBState) : Bool :=
  st.conversations.all (fun c => c.id < st.nextConvId) &&
  st.messages.all (fun m => m.id < st.nextMsgId) &&
  st.messages.all (fun m => m.conversation_id < st.nextConvId)

/-- `ChatService.create_conversation`: inserts a fresh row (title unset,
optional system-prompt override) and returns the detached copy. -/
def create_conversation (st : DBState) (uid : Nat) (sys : Option String) :
    Conversation × DBState :=
  let c : Conversation := ⟨st.nextConvId, uid, none, sys⟩
  (c, { st with conversations := st.conversations ++ [c],
                nextConvId := st.nextConvId + 1 })

/-- `ChatService.get_conversation`: first row filtered by id AND owner;
`none` when absent or owned by someone else. -/
def get_conversation (st : DBState) (cid uid : Nat) : Option Conversation :=
  st.conversations.find? (fun c => c.id == cid && c.user_id == uid)

/-- `ChatService.add_message`: raises `ValueError` (modelled as `Except.error`)
when the conversation does not resolve for this user; otherwise inserts the
message row and commits. -/
def add_message (st : DBState) (cid uid : Nat) (content role : String) :
    Except String (Message × DBState) :=
  match get_conversation st cid uid with
  | none => Except.error "对话不存在或无权限访问"
  | some _ =>
      let m : Message := ⟨st.nextMsgId, cid, role, content⟩
      Except.ok (m, { st with messages := st.messages ++ [m],
                              nextMsgId := st.nextMsgId + 1 })

/-- `ChatService.get_messages`: empty list when the conversation does not
resolve for the user; otherwise the conversation transcript ordered ascending
by creation (insertion order), paginated by offset/limit. -/
def get_messages (st : DBState) (cid uid : Nat) (limit offset : Nat) :
    List Message :=
  match get_conversation st cid uid with
  | none => []
  | some _ =>
      (((st.messages.filter (fun m => m.conversation_id == cid)).drop offset).take limit)

/-- `ChatService.delete_conversation`: `false` when the conversation does not
resolve for the user; otherwise deletes the owned messages then the
conversation row. -/
def delete_conversation (st : DBState) (cid uid : Nat) : Bool × DBState :=
  match get_conversation st cid uid with
  | none => (false, st)
  | some _ =>
      (true,
        { st with
          messages := st.messages.filter (fun m => !(m.conversation_id == cid)),
          conversations := st.conversations.filter (fun c => !(c.id == cid)) })

/-- `ChatService.update_conversation` specialised to the one field the `/send`
pipeline writes (the title).  When the conversation does not resolve it
returns `None`.  When it does resolve, the source sets attributes on the
DETACHED instance `get_conversation` expunged, commits an unrelated fresh
session from `get_db()` (which holds no pending change), and then calls
`db.refresh` on the detached instance, which raises `InvalidRequestError`,
re-raised by the method's catch-all.  Nothing is ever persisted, so the
resolving branch is an error leaving the store unchanged. -/
def update_conversation_title (st : DBState) (cid uid : Nat) (title : String) :
    Except String (Option DBState) :=
  match get_conversation st cid uid with
  | none => Except.ok none
  | some _ =>
      Except.error "InvalidRequestError: Instance is not persistent within this Session"

/-! ### Title derivation (`ChatService.generate_conversation_title`) -/

/-- The whitespace set stripped by Python `str.strip`: every character for
which `str.isspace` holds — ASCII whitespace and separators, NEL, and the
Unicode space separators (NBSP, Ogham space, U+2000–U+200A, line/paragraph
separators, narrow NBSP, medium mathematical space, ideographic space
U+3000). -/
def isPyWhite (c : Char) : Bool :=
  (0x9 ≤ c.toNat && c.toNat ≤ 0xd) ||
  (0x1c ≤ c.toNat && c.toNat ≤ 0x1f) ||
  c.toNat == 0x20 || c.toNat == 0x85 || c.toNat == 0xa0 ||
  c.toNat == 0x1680 ||
  (0x2000 ≤ c.toNat && c.toNat ≤ 0x200a) ||
  c.toNat == 0x2028 || c.toNat == 0x2029 || c.toNat == 0x202f ||
  c.toNat == 0x205f || c.toNat == 0x3000

/-- Python `str.strip` on a character list: drop whitespace from both ends. -/
def stripChars (l : List Char) : List Char :=
  ((l.dropWhile isPyWhite).reverse.dropWhile isPyWhite).reverse

/-- Python `first_message.strip()` as a string operation. -/
def pyStrip (s : String) : String := String.mk (stripChars s.toList)

/-- `ChatService.generate_conversation_title`: default placeholder when the
message is empty or whitespace-only; otherwise the first 20 characters of the
stripped message, with an ellipsis appended when it was truncated. -/
def generate_conversation_title (first_message : String) : String :=
  if pyStrip first_message = "" then "新对话"
  else
    let stripped := pyStrip first_message
    let title := String.mk (stripped.toList.take 20)
    if stripped.toList.length > 20 then title ++ "..." else title

/-! ### System prompt service (`core/services/system_prompt_service.py`) -/

/-- Phase one of `SystemPromptService.set_active_system_prompt`: the bulk
`UPDATE ... SET is_active = false` over every prompt owned by the user. -/
def deactivateAll (l : List SystemPromptRec) (uid : Nat) : List SystemPromptRec :=
  l.map (fun p => if p.user_id == uid then { p with is_active := false } else p)

/-- Phase two: `query(...).first()` followed by a mutation of that one row —
activate the first row matching owner and id, leave the rest untouched. -/
def activateFirst (l : List SystemPromptRec) (uid pid : Nat) : List SystemPromptRec :=
  match l with
  | [] => []
  | p :: rest =>
      if p.user_id == uid && p.id == pid then { p with is_active := true } :: rest
      else p :: activateFirst rest uid pid

/-- `SystemPromptService.set_active_system_prompt`: deactivate every prompt of
the user, then activate the target when it resolves (returning `true`), else
return `false`.  Both branches leave the session context manager normally, so
in BOTH branches the deactivation is committed
(`Database.get_session` commits on normal exit). -/
def set_active_system_prompt (l : List SystemPromptRec) (uid pid : Nat) :
    Bool × List SystemPromptRec :=
  let ps := deactivateAll l uid
  if ps.any (fun p => p.user_id == uid && p.id == pid) then
    (true, activateFirst ps uid pid)
  else
    (false, ps)

/-- Number of active system prompts owned by a user. -/
def countActive (l : List SystemPromptRec) (uid : Nat) : Nat :=
  (l.filter (fun p => p.user_id == uid && p.is_active)).length

/-! ### Agent (`core/agent.py`) -/

/-- The transport-level outcome of the Ollama HTTP call made by
`AIAgent._generate_response`: a reply with a status code and a body that may
or may not carry a `response` field, or a raised exception (network error,
timeout, JSON decode error, ...). -/
inductive HttpOutcome where
  | reply (status : Nat) (responseField : Option String)
  | exn (msg : String)
  deriving Repr, DecidableEq

/-- The generation context built by
`AIAgent._build_context_with_active_system_prompt`. -/
structure AgentCtx where
  user_prompt : String
  system_prompt : String
  deriving Repr, DecidableEq

/-- `AIAgent._build_context_with_active_system_prompt`: the active prompt
content when one was resolved at construction, else the process default. -/
def build_context (active : Option String) (defaultPrompt : String)
    (message : String) : AgentCtx :=
  ⟨message, match active with | some c => c | none => defaultPrompt⟩

/-- `AIAgent._generate_response`: status 200 yields the `response` field (or a
canned apology when the field is missing); any other status yields the
model-unavailable fallback; a raised exception yields the
service-unavailable fallback. -/
def generate_response (outcome : HttpOutcome) : String :=
  match outcome with
  | .reply status resp =>
      if status = 200 then
        match resp with
        | some r => r
        | none => "抱歉，我现在无法生成回复。"
      else "抱歉，AI模型暂时不可用，请稍后再试。"
  | .exn _ => "抱歉，AI服务暂时不可用，请稍后再试。"

/-- The fallback replies `AIAgent` can hand back instead of raising. -/
def isFallbackReply (s : String) : Bool :=
  s == "抱歉，我现在无法生成回复。" ||
  s == "抱歉，AI模型暂时不可用，请稍后再试。" ||
  s == "抱歉，AI服务暂时不可用，请稍后再试。" ||
  s == "抱歉，处理您的消息时出现错误，请稍后再试。"

/-- `AIAgent.chat`: builds the context (a step that may itself raise, modelled
by `Except`) and generates; every exception on the way is caught and turned
into the generic fallback reply.  Returning `String` (not `Except`) is the
totality of the source: every branch of the Python ends in `return`. -/
def agent_chat (buildOutcome : Except String AgentCtx)
    (http : AgentCtx → HttpOutcome) : String :=
  match buildOutcome with
  | .error _ => "抱歉，处理您的消息时出现错误，请稍后再试。"
  | .ok ctx => generate_response (http ctx)

/-! ### Emotion classification and TTS path (`api/tts_api.py`,
`emotion_model/emotion_enhance.py`) -/

/-- `lst` starts with `sub` (character-by-character). -/
def startsWithChars : List Char → List Char → Bool
  | [], _ => true
  | _ :: _, [] => false
  | a :: as, b :: bs => a == b && startsWithChars as bs

/-- Python `sub in hay` on character lists: `sub` occurs contiguously. -/
def containsChars (hay sub : List Char) : Bool :=
  match hay with
  | [] => sub.isEmpty
  | _ :: t => startsWithChars sub hay || containsChars t sub

/-- The classifier's label set, `emotion_enhance.label_mapping` (class index ↦
Chinese label). -/
def label_mapping : List String :=
  ["平淡", "关切", "开心", "愤怒", "悲伤", "疑问", "惊讶", "厌恶"]

/-- The curated keyword lexicon of the import-failure fallback
`predict_emotion` in `api/tts_api.py` (insertion order preserved). -/
def emotion_keywords : List (String × List String) :=
  [("开心", ["开心", "高兴", "快乐", "兴奋", "愉快", "😊", "😄", "😃"]),
   ("悲伤", ["悲伤", "难过", "伤心", "痛苦", "失落", "😢", "😭", "😔"]),
   ("疑问", ["什么", "怎么", "为什么", "如何", "?", "？", "吗", "呢"]),
   ("惊讶", ["惊讶", "吃惊", "震惊", "意外", "😮", "😲", "哇"]),
   ("关切", ["关心", "担心", "关爱", "照顾", "注意", "小心"])]

/-- The keyword-table fallback `predict_emotion` defined in `api/tts_api.py`
when importing `emotion_enhance` fails: lowercase the text, return the first
label one of whose keywords occurs, defaulting to the neutral label. -/
def fallback_predict_emotion (text : String) : String :=
  let tl := text.toList.map Char.toLower
  match emotion_keywords.find?
      (fun pr => pr.2.any (fun kw => containsChars tl kw.toList)) with
  | some pr => pr.1
  | none => "平淡"

/-- `emotion_enhance.predict_emotion` (the model path): a missing model
artifact raises `FileNotFoundError` before any inference; otherwise the label
of the predicted class index (a class outside the mapping would raise a
`KeyError`, also modelled as an error). -/
def predict_emotion_model (artifactPresent : Bool) (predictedClass : Nat) :
    Except String String :=
  if artifactPresent then
    match label_mapping.get? predictedClass with
    | some lab => Except.ok lab
    | none => Except.error "KeyError"
  else Except.error "模型路径不存在"

/-- The name `predict_emotion` as bound in `api/tts_api.py`: the model
function when the `emotion_enhance` import succeeded, the keyword fallback
otherwise (the fallback itself never raises). -/
def predict_emotion (importOk artifactPresent : Bool) (predictedClass : Nat)
    (text : String) : Except String String :=
  if importOk then predict_emotion_model artifactPresent predictedClass
  else Except.ok (fallback_predict_emotion text)

/-- The `index_tts` section of the configuration
(`config/settings.py` / `load_config().index_tts`). -/
structure TTSConfig where
  default_audio_prompt : String
  default_emotion_care : String
  default_emotion_happy : String
  default_emotion_sad : String
  default_emotion_question : String
  default_emotion_surprised : String
  deriving Repr, DecidableEq

/-- The `emotion_audio_map` dictionary lookup inside `get_emotion_audio`:
the neutral label is mapped explicitly to `None`; the anger and disgust labels
are commented out in the source, so `dict.get` yields `None` for them too. -/
def emotion_audio_map (cfg : TTSConfig) (emo : String) : Option String :=
  if emo == "平淡" then none
  else if emo == "关切" then some cfg.default_emotion_care
  else if emo == "开心" then some cfg.default_emotion_happy
  else if emo == "悲伤" then some cfg.default_emotion_sad
  else if emo == "疑问" then some cfg.default_emotion_question
  else if emo == "惊讶" then some cfg.default_emotion_surprised
  else none

/-- `get_emotion_audio`: classify, then map the label to its configured
reference clip; ANY exception from classification (or config loading) is
caught and collapses to the neutral label with no clip. -/
def get_emotion_audio (cfg : TTSConfig) (importOk artifactPresent : Bool)
    (predictedClass : Nat) (text : String) : String × Option String :=
  match predict_emotion importOk artifactPresent predictedClass text with
  | .ok emo => (emo, emotion_audio_map cfg emo)
  | .error _ => ("平淡", none)

/-- The JSON document `call_indextts` posts to the TTS engine. -/
structure TTSRequestData where
  text : String
  audio_prompt : String
  emo_audio_prompt : Option String
  output_path : String
  deriving Repr, DecidableEq

/-- The request `call_indextts` builds before calling the engine: the speaker
clip defaults to the configured one only when the caller left it unset; the
emotion clip is unconditionally recomputed from the text by
`get_emotion_audio`, overwriting the caller's `emo_audio_prompt` argument; the
output path defaults to a timestamped name when unset. -/
def call_indextts_request (cfg : TTSConfig) (importOk artifactPresent : Bool)
    (predictedClass : Nat) (text : String) (audio_prompt : Option String)
    (emo_audio_prompt : Option String) (output_path : Option String)
    (timestamp : String) : TTSRequestData :=
  let ap := match audio_prompt with
            | some a => a
            | none => cfg.default_audio_prompt
  let emo := (get_emotion_audio cfg importOk artifactPresent predictedClass text).2
  let op := match output_path with
            | some o => o
            | none => "outputs/" ++ timestamp ++ ".wav"
  ⟨text, ap, emo, op⟩

/-- The body the TTS engine answers with on a non-raising round trip. -/
structure TTSBody where
  success : Bool
  output_path : Option String
  error : Option String
  deriving Repr, DecidableEq

/-- The outcome of the network call inside `call_indextts`: a decoded body, a
`requests` exception (connection error, timeout, or `raise_for_status` on a
bad status), or any other exception. -/
inductive TTSOutcome where
  | body (b : TTSBody)
  | requestExn (msg : String)
  | otherExn (msg : String)
  deriving Repr, DecidableEq

/-- The value `call_indextts` returns: the engine body as-is on success of the
round trip, and a structured `success=false` envelope for either exception
class — it never raises. -/
def call_indextts (outcome : TTSOutcome) : TTSBody :=
  match outcome with
  | .body b => b
  | .requestExn m => ⟨false, none, some ("TTS API调用失败: " ++ m)⟩
  | .otherExn m => ⟨false, none, some ("未知错误: " ++ m)⟩

/-- `os.path.basename` on a POSIX path: everything after the last slash. -/
def basename (p : String) : String :=
  String.mk ((p.toList.reverse.takeWhile (fun c => !(c == '/'))).reverse)

/-- The response envelope of the `/synthesize` route. -/
structure SynthesizeResponse where
  success : Bool
  audio_url : Option String
  output_path : Option String
  message : Option String
  error : Option String
  deriving Repr, DecidableEq

/-- `synthesize_with_emotion`: on engine success the output path is reduced to
its bare filename and wrapped in a success envelope; otherwise a
`success=false` envelope carrying the error description (with a default when
the engine gave none). -/
def synthesize_with_emotion (outcome : TTSOutcome) : SynthesizeResponse :=
  let result := call_indextts outcome
  if result.success then
    let op := match result.output_path with
              | some o => o
              | none => ""
    let filename := if op == "" then "" else basename op
    ⟨true, some ("/api/tts/download/" ++ filename), some filename,
      some "TTS合成成功", none⟩
  else
    ⟨false, none, none, none,
      some (match result.error with
            | some e => e
            | none => "TTS合成失败")⟩

/-! ### The `/send` pipeline (`api/chat_api.py::send_message`) -/

/-- The body of a `ChatResponse` (success flag, reply text, ids). -/
structure ChatResponse where
  success : Bool
  message : String
  conversation_id : Option Nat
  message_id : Option Nat
  error : Option String
  deriving Repr, DecidableEq

/-- What the route hands to FastAPI: a response body, or the 404
`HTTPException` re-raised when the given conversation id does not resolve. -/
inductive SendOutcome where
  | resp (r : ChatResponse)
  | notFound
  deriving Repr, DecidableEq

/-- The title block of `send_message` (only reached when no conversation id
was given): re-fetch the conversation; when it resolves and its title is
falsy (unset or empty), derive a title from the first message and attempt to
persist it via `update_conversation_title`.  The exception that attempt
raises on every resolving conversation is swallowed at `chat_api.py:114`
("不影响主要流程"), so the block always yields a state — and, because the
update never persists, that state is the input state. -/
def titleStep (st : DBState) (cid uid : Nat) (msg : String) : DBState :=
  match get_conversation st cid uid with
  | none => st
  | some c =>
      if (match c.title with | none => "" | some t => t) == "" then
        match update_conversation_title st cid uid
            (generate_conversation_title msg) with
        | .ok (some st2) => st2
        | .ok none => st
        | .error _ => st
      else st

/-- `send_message`: resolve or create the conversation, persist the user turn,
attempt the title derivation for a fresh conversation (an attempt whose
failure is swallowed), obtain the agent reply (total, so
passed in as the string `agent_chat` returned), persist the assistant turn.
An `Except.error` escaping a store call lands in the catch-all branch, which
reports `success=false` with the state as already committed piecemeal.
`none` models an absent id as produced by the request model's default; the
Python truthiness test `if not request.conversation_id` would also send a
literal id 0 down the create path, a corner no claim touches. -/
def send_message (st : DBState) (uid : Nat) (msg : String)
    (conversation_id : Option Nat) (sys : Option String) (reply : String) :
    SendOutcome × DBState :=
  match conversation_id with
  | none =>
      let cs := create_conversation st uid sys
      let cid := cs.1.id
      match add_message cs.2 cid uid msg "user" with
      | .error e => (.resp ⟨false, "抱歉，处理您的消息时出现错误。", none, none, some e⟩, cs.2)
      | .ok ms =>
          let st3 := titleStep ms.2 cid uid msg
          match add_message st3 cid uid reply "assistant" with
          | .error e =>
              (.resp ⟨false, "抱歉，处理您的消息时出现错误。", none, none, some e⟩, st3)
          | .ok ms2 =>
              (.resp ⟨true, reply, some cid, some ms2.1.id, none⟩, ms2.2)
  | some cid =>
      match get_conversation st cid uid with
      | none => (.notFound, st)
      | some _ =>
          match add_message st cid uid msg "user" with
          | .error e => (.resp ⟨false, "抱歉，处理您的消息时出现错误。", none, none, some e⟩, st)
          | .ok ms =>
              match add_message ms.2 cid uid reply "assistant" with
              | .error e =>
                  (.resp ⟨false, "抱歉，处理您的消息时出现错误。", none, none, some e⟩, ms.2)
              | .ok ms2 =>
                  (.resp ⟨true, reply, some cid, some ms2.1.id, none⟩, ms2.2)

/-! ### Auxiliary closed values and call-sequence harness -/

/-- A concrete configuration used to instantiate closed statements. -/
def testCfg : TTSConfig :=
  ⟨"voice/speaker.wav", "voice/care.wav", "voice/happy.wav", "voice/sad.wav",
   "voice/question.wav", "voice/surprised.wav"⟩

/-- Apply a sequence of `set_active_system_prompt` calls (owner, target id)
to a prompt table, keeping the committed state of each call. -/
def runSetActive (l : List SystemPromptRec) (calls : List (Nat × Nat)) :
    List SystemPromptRec :=
  calls.foldl (fun acc c => (set_active_system_prompt acc c.1 c.2).2) l

/-! ## Theorems -/

/-- C7: title derivation returns the stripped message unchanged when its
stripped length is at most 20 characters, the first 20 characters followed by
"..." when longer, and the placeholder "新对话" when the message is empty or
whitespace-only. -/
theorem title_derivation_cases (s : String) :
    (pyStrip s = "" → generate_conversation_title s = "新对话") ∧
    (pyStrip s ≠ "" → (pyStrip s).toList.length ≤ 20 →
      generate_conversation_title s = pyStrip s) ∧
    ((pyStrip s).toList.length > 20 →
      generate_conversation_title s =
        String.mk ((pyStrip s).toList.take 20) ++ "...") := by
  refine ⟨?_, ?_, ?_⟩
  · intro h
    simp only [generate_conversation_title, h, if_pos]
  · intro h hlen
    have hnot : ¬ (pyStrip s).toList.length > 20 := by omega
    simp only [generate_conversation_title, if_neg h, if_neg hnot]
    rw [List.take_of_length_le hlen]
    rfl
  · intro hlen
    have h : pyStrip s ≠ "" := by
      intro h0
      rw [h0] at hlen
      simp at hlen
    simp only [generate_conversation_title, if_neg h, if_pos hlen]

/-- Witness for the title-derivation theorem at the spec's three sample
inputs — a 5-character message, a 25-character message, a whitespace-only
message — plus a message that is a single ideographic space (U+3000, which
Python `str.strip` removes). -/
theorem title_derivation_witness :
    generate_conversation_title "Hello" = pyStrip "Hello" ∧
    generate_conversation_title "abcdefghijklmnopqrstuvwxy" =
      String.mk ((pyStrip "abcdefghijklmnopqrstuvwxy").toList.take 20) ++ "..." ∧
    generate_conversation_title "   " = "新对话" ∧
    generate_conversation_title "　" = "新对话" :=
  ⟨(title_derivation_cases "Hello").2.1 (by decide) (by decide),
   (title_derivation_cases "abcdefghijklmnopqrstuvwxy").2.2 (by decide),
   (title_derivation_cases "   ").1 (by decide),
   (title_derivation_cases "　").1 (by decide)⟩

/-- C5: `AIAgent.chat` is total (it is a plain function into `String`; every
branch of the source returns); a failure while building the context yields the
generic fallback reply, a raised adapter exception yields the
service-unavailable fallback, a non-200 status yields the model-unavailable
fallback — in every failure mode the result is a user-facing fallback string,
never a propagated exception. -/
theorem agent_chat_total_fallback (buildOutcome : Except String AgentCtx)
    (http : AgentCtx → HttpOutcome) :
    (∀ e, buildOutcome = .error e →
      agent_chat buildOutcome http = "抱歉，处理您的消息时出现错误，请稍后再试。" ∧
      isFallbackReply (agent_chat buildOutcome http) = true) ∧
    (∀ ctx m, buildOutcome = .ok ctx → http ctx = .exn m →
      isFallbackReply (agent_chat buildOutcome http) = true) ∧
    (∀ ctx status r, buildOutcome = .ok ctx → http ctx = .reply status r →
      status ≠ 200 →
      isFallbackReply (agent_chat buildOutcome http) = true) := by
  refine ⟨?_, ?_, ?_⟩
  · intro e he
    subst he
    refine ⟨rfl, ?_⟩
    show isFallbackReply "抱歉，处理您的消息时出现错误，请稍后再试。" = true
    decide
  · intro ctx m hb hh
    subst hb
    simp only [agent_chat, generate_response, hh]
    decide
  · intro ctx status r hb hh hs
    subst hb
    simp only [agent_chat, generate_response, hh, if_neg hs]
    decide

/-- Witness for the agent fallback theorem: a failing context build, a raised
network exception, and a 503 status, each at a concrete input. -/
theorem agent_chat_total_fallback_witness :
    (agent_chat (.error "boom") (fun _ => .reply 200 (some "ok")) =
      "抱歉，处理您的消息时出现错误，请稍后再试。" ∧
     isFallbackReply (agent_chat (.error "boom")
       (fun _ => .reply 200 (some "ok"))) = true) ∧
    isFallbackReply (agent_chat (.ok ⟨"hi", "sys"⟩)
      (fun _ => .exn "timeout")) = true ∧
    isFallbackReply (agent_chat (.ok ⟨"hi", "sys"⟩)
      (fun _ => .reply 503 none)) = true :=
  ⟨(agent_chat_total_fallback (.error "boom")
      (fun _ => .reply 200 (some "ok"))).1 "boom" rfl,
   (agent_chat_total_fallback (.ok ⟨"hi", "sys"⟩)
      (fun _ => .exn "timeout")).2.1 ⟨"hi", "sys"⟩ "timeout" rfl rfl,
   (agent_chat_total_fallback (.ok ⟨"hi", "sys"⟩)
      (fun _ => .reply 503 none)).2.2 ⟨"hi", "sys"⟩ 503 none rfl rfl
      (by decide)⟩

/-- C8: on any adapter failure (HTTP/request error or unknown exception) the
synthesis route answers a structured `success=false` envelope carrying an
error description (the function is total, so nothing is raised); when the
engine reports success, the returned output path is the bare filename of the
engine's output path. -/
theorem synthesize_failure_envelope_and_basename (outcome : TTSOutcome) :
    (∀ m, outcome = .requestExn m →
      synthesize_with_emotion outcome =
        ⟨false, none, none, none, some ("TTS API调用失败: " ++ m)⟩) ∧
    (∀ m, outcome = .otherExn m →
      synthesize_with_emotion outcome =
        ⟨false, none, none, none, some ("未知错误: " ++ m)⟩) ∧
    (∀ b, outcome = .body b → b.success = false →
      (synthesize_with_emotion outcome).success = false ∧
      (synthesize_with_emotion outcome).error.isSome = true) ∧
    (∀ b p, outcome = .body b → b.success = true → b.output_path = some p →
      (synthesize_with_emotion outcome).success = true ∧
      (synthesize_with_emotion outcome).output_path = some (basename p)) := by
  refine ⟨?_, ?_, ?_, ?_⟩
  · intro m h
    subst h
    rfl
  · intro m h
    subst h
    rfl
  · intro b h hs
    subst h
    obtain ⟨bs, bop, berr⟩ := b
    simp only at hs
    subst hs
    cases berr <;> exact ⟨rfl, rfl⟩
  · intro b p h hs hp
    subst h
    obtain ⟨bs, bop, berr⟩ := b
    simp only at hs hp
    subst hs
    subst hp
    rcases eq_or_ne p "" with hemp | hemp
    · subst hemp
      exact ⟨rfl, rfl⟩
    · have hb : (p == "") = false := by simpa using hemp
      refine ⟨rfl, ?_⟩
      simp [synthesize_with_emotion, call_indextts, hb]

/-- Witness for the synthesis envelope theorem: a connection error, an unknown
exception, an engine-side failure body, and an engine success body whose
output path is reduced to its filename. -/
theorem synthesize_failure_envelope_witness :
    synthesize_with_emotion (.requestExn "conn refused") =
      ⟨false, none, none, none, some ("TTS API调用失败: " ++ "conn refused")⟩ ∧
    synthesize_with_emotion (.otherExn "oops") =
      ⟨false, none, none, none, some ("未知错误: " ++ "oops")⟩ ∧
    ((synthesize_with_emotion (.body ⟨false, none, some "bad"⟩)).success = false ∧
     (synthesize_with_emotion (.body ⟨false, none, some "bad"⟩)).error.isSome = true) ∧
    ((synthesize_with_emotion
        (.body ⟨true, some "outputs/20240101.wav", none⟩)).success = true ∧
     (synthesize_with_emotion
        (.body ⟨true, some "outputs/20240101.wav", none⟩)).output_path =
       some (basename "outputs/20240101.wav")) :=
  ⟨(synthesize_failure_envelope_and_basename (.requestExn "conn refused")).1
     "conn refused" rfl,
   (synthesize_failure_envelope_and_basename (.otherExn "oops")).2.1 "oops" rfl,
   (synthesize_failure_envelope_and_basename (.body ⟨false, none, some "bad"⟩)).2.2.1
     ⟨false, none, some "bad"⟩ rfl rfl,
   (synthesize_failure_envelope_and_basename
      (.body ⟨true, some "outputs/20240101.wav", none⟩)).2.2.2
     ⟨true, some "outputs/20240101.wav", none⟩ "outputs/20240101.wav" rfl rfl rfl⟩

/-- C6: for any conversation id `C` that does not resolve for user `U` —
whether absent altogether or owned by a different user — `get_conversation`
returns `none` (absent, not an error) and `add_message` fails with the
ownership error, for every content and role. -/
theorem per_user_isolation (st : DBState) (C U : Nat)
    (h : st.conversations.all (fun c => !(c.id == C && c.user_id == U)) = true) :
    get_conversation st C U = none ∧
    ∀ content role, add_message st C U content role =
      Except.error "对话不存在或无权限访问" := by
  have hg : get_conversation st C U = none := by
    rw [get_conversation, List.find?_eq_none]
    intro x hx
    have hx2 := List.all_eq_true.mp h x hx
    simp only [Bool.not_eq_eq_eq_not, Bool.not_true] at hx2
    simp [hx2]
  refine ⟨hg, ?_⟩
  intro content role
  rw [add_message, hg]

/-- Witness for the isolation theorem: a store holding one conversation of
user 2; user 1 can neither read it nor append to it. -/
theorem per_user_isolation_witness :
    get_conversation ⟨[⟨5, 2, none, none⟩], [], [], 6, 0⟩ 5 1 = none ∧
    add_message ⟨[⟨5, 2, none, none⟩], [], [], 6, 0⟩ 5 1 "hi" "user" =
      Except.error "对话不存在或无权限访问" :=
  ⟨(per_user_isolation ⟨[⟨5, 2, none, none⟩], [], [], 6, 0⟩ 5 1 (by decide)).1,
   (per_user_isolation ⟨[⟨5, 2, none, none⟩], [], [], 6, 0⟩ 5 1 (by decide)).2
     "hi" "user"⟩

/-- C9: deleting a conversation that resolves for its owner returns `true`,
removes every one of its messages, makes `get_messages` return the empty
transcript (not an error) for any pagination, and makes a second delete
return `false` rather than raising. -/
theorem delete_conversation_cascade (st : DBState) (C U : Nat)
    (h : (get_conversation st C U).isSome = true) :
    (delete_conversation st C U).1 = true ∧
    (delete_conversation st C U).2.messages.all
      (fun m => !(m.conversation_id == C)) = true ∧
    (∀ limit offset,
      get_messages (delete_conversation st C U).2 C U limit offset = []) ∧
    (delete_conversation (delete_conversation st C U).2 C U).1 = false := by
  obtain ⟨c, hc⟩ := Option.isSome_iff_exists.mp h
  have hdel :
      delete_conversation st C U =
        (true,
          { st with
            messages := st.messages.filter (fun m => !(m.conversation_id == C)),
            conversations := st.conversations.filter (fun c => !(c.id == C)) }) := by
    rw [delete_conversation, hc]
  have hget2 :
      get_conversation (delete_conversation st C U).2 C U = none := by
    rw [hdel, get_conversation, List.find?_eq_none]
    intro x hx
    simp only [List.mem_filter] at hx
    have := hx.2
    simp only [Bool.not_eq_eq_eq_not, Bool.not_true] at this
    simp [this]
  refine ⟨by rw [hdel], ?_, ?_, ?_⟩
  · rw [hdel]
    rw [List.all_eq_true]
    intro x hx
    simp only [List.mem_filter] at hx
    exact hx.2
  · intro limit offset
    rw [get_messages, hget2]
  · rw [delete_conversation, hget2]

/-- Witness for the delete-cascade theorem: one conversation of user 1 with
two messages; deletion succeeds, the transcript is empty afterwards and the
second delete returns false. -/
theorem delete_conversation_cascade_witness :
    (delete_conversation
       ⟨[⟨0, 1, none, none⟩],
        [⟨0, 0, "user", "hi"⟩, ⟨1, 0, "assistant", "yo"⟩], [], 1, 2⟩ 0 1).1 = true ∧
    (delete_conversation
       ⟨[⟨0, 1, none, none⟩],
        [⟨0, 0, "user", "hi"⟩, ⟨1, 0, "assistant", "yo"⟩], [], 1, 2⟩ 0 1).2.messages.all
      (fun m => !(m.conversation_id == 0)) = true ∧
    get_messages (delete_conversation
      ⟨[⟨0, 1, none, none⟩],
       [⟨0, 0, "user", "hi"⟩, ⟨1, 0, "assistant", "yo"⟩], [], 1, 2⟩ 0 1).2
      0 1 50 0 = [] ∧
    (delete_conversation (delete_conversation
       ⟨[⟨0, 1, none, none⟩],
        [⟨0, 0, "user", "hi"⟩, ⟨1, 0, "assistant", "yo"⟩], [], 1, 2⟩ 0 1).2 0 1).1 =
      false :=
  ⟨(delete_conversation_cascade
     ⟨[⟨0, 1, none, none⟩],
      [⟨0, 0, "user", "hi"⟩, ⟨1, 0, "assistant", "yo"⟩], [], 1, 2⟩ 0 1 (by decide)).1,
   (delete_conversation_cascade
     ⟨[⟨0, 1, none, none⟩],
      [⟨0, 0, "user", "hi"⟩, ⟨1, 0, "assistant", "yo"⟩], [], 1, 2⟩ 0 1 (by decide)).2.1,
   (delete_conversation_cascade
     ⟨[⟨0, 1, none, none⟩],
      [⟨0, 0, "user", "hi"⟩, ⟨1, 0, "assistant", "yo"⟩], [], 1, 2⟩ 0 1
     (by decide)).2.2.1 50 0,
   (delete_conversation_cascade
     ⟨[⟨0, 1, none, none⟩],
      [⟨0, 0, "user", "hi"⟩, ⟨1, 0, "assistant", "yo"⟩], [], 1, 2⟩ 0 1
     (by decide)).2.2.2⟩

/-- C3 counterexample: the claim says a missing model artifact is caught by
the KEYWORD fallback.  On the text "我很开心" (which contains the curated
happy keyword, so the keyword table would answer the happy label), running the
classification path with the module imported but the model artifact absent
yields the neutral label — `get_emotion_audio` swallows the call-time error
directly, never consulting the keyword table. -/
theorem artifact_absent_skips_keyword_table :
    (get_emotion_audio testCfg true false 2 "我很开心").1 = "平淡" ∧
    fallback_predict_emotion "我很开心" = "开心" ∧
    ("平淡" : String) ≠ "开心" := by
  refine ⟨rfl, ?_, by decide⟩
  decide

/-- C3 amended: the keyword fallback (first matching label wins, neutral
default) applies exactly when IMPORTING the classifier module failed; a
call-time classifier error — in particular a missing model artifact — is
caught inside `get_emotion_audio` and collapses to the neutral label with no
clip, bypassing the keyword table. -/
theorem classifier_fallback_amended (cfg : TTSConfig) :
    (∀ text artifactPresent predictedClass,
      get_emotion_audio cfg false artifactPresent predictedClass text =
        (fallback_predict_emotion text,
         emotion_audio_map cfg (fallback_predict_emotion text))) ∧
    (∀ text predictedClass,
      get_emotion_audio cfg true false predictedClass text = ("平淡", none)) ∧
    (∀ text,
      emotion_keywords.all (fun pr => pr.2.all
        (fun kw => !containsChars (text.toList.map Char.toLower) kw.toList)) =
        true →
      fallback_predict_emotion text = "平淡") := by
  refine ⟨?_, ?_, ?_⟩
  · intro text artifactPresent predictedClass
    rfl
  · intro text predictedClass
    rfl
  · intro text h
    have hnone : emotion_keywords.find?
        (fun pr => pr.2.any
          (fun kw => containsChars (text.toList.map Char.toLower) kw.toList)) =
        none := by
      rw [List.find?_eq_none]
      intro pr hpr
      have hall := List.all_eq_true.mp h pr hpr
      simp only [List.any_eq_true, not_exists, not_and, Bool.not_eq_true]
      intro kw hkw
      have h2 := List.all_eq_true.mp hall kw hkw
      simpa using h2
    rw [fallback_predict_emotion, hnone]

/-- Witness for the amended classifier theorem: an import failure falls back
to the keyword table, a missing artifact collapses to neutral, and a
keyword-free text defaults to neutral. -/
theorem classifier_fallback_amended_witness :
    get_emotion_audio testCfg false true 2 "我很开心" =
      (fallback_predict_emotion "我很开心",
       emotion_audio_map testCfg (fallback_predict_emotion "我很开心")) ∧
    get_emotion_audio testCfg true false 2 "我很开心" = ("平淡", none) ∧
    fallback_predict_emotion "你好" = "平淡" :=
  ⟨(classifier_fallback_amended testCfg).1 "我很开心" true 2,
   (classifier_fallback_amended testCfg).2.1 "我很开心" 2,
   (classifier_fallback_amended testCfg).2.2 "你好" (by decide)⟩

/-- C4 counterexample: the claim says a caller-supplied `emotion_audio` is
used as given.  Supplying "custom.wav" while the text classifies happy (via
the keyword fallback) produces a request carrying the configured happy clip,
not the supplied one — line 102 of `tts_api.py` overwrites the argument. -/
theorem caller_emotion_audio_overwritten :
    (call_indextts_request testCfg false true 0 "我很开心" none
        (some "custom.wav") none "20250101000000").emo_audio_prompt =
      some "voice/happy.wav" ∧
    some ("voice/happy.wav" : String) ≠ some ("custom.wav" : String) := by
  refine ⟨?_, by decide⟩
  rfl

/-- C4 amended: the speaker clip defaults to the configured one exactly when
the caller left it unset (a supplied speaker clip is used as given), but the
emotion clip is ALWAYS recomputed from the text via the classification path,
discarding any caller-supplied value; the per-label mapping sends the happy
label to the configured happy-voice path and the neutral label to none. -/
theorem synthesize_resolution_amended (cfg : TTSConfig)
    (importOk artifactPresent : Bool) (predictedClass : Nat) (text : String)
    (audio_prompt emo_audio_prompt output_path : Option String)
    (timestamp : String) :
    (audio_prompt = none →
      (call_indextts_request cfg importOk artifactPresent predictedClass text
        audio_prompt emo_audio_prompt output_path timestamp).audio_prompt =
        cfg.default_audio_prompt) ∧
    (∀ a, audio_prompt = some a →
      (call_indextts_request cfg importOk artifactPresent predictedClass text
        audio_prompt emo_audio_prompt output_path timestamp).audio_prompt = a) ∧
    ((call_indextts_request cfg importOk artifactPresent predictedClass text
        audio_prompt emo_audio_prompt output_path timestamp).emo_audio_prompt =
      (get_emotion_audio cfg importOk artifactPresent predictedClass text).2) ∧
    emotion_audio_map cfg "开心" = some cfg.default_emotion_happy ∧
    emotion_audio_map cfg "平淡" = none := by
  refine ⟨?_, ?_, ?_, rfl, rfl⟩
  · intro h
    subst h
    rfl
  · intro a h
    subst h
    rfl
  · cases audio_prompt <;> cases output_path <;> rfl

/-- Witness for the amended resolution theorem: with no speaker clip the
configured default is used, and the emotion clip equals the classification
result even though the caller supplied one. -/
theorem synthesize_resolution_amended_witness :
    (call_indextts_request testCfg false true 0 "我很开心" none
        (some "custom.wav") none "20250101000000").audio_prompt =
      testCfg.default_audio_prompt ∧
    (call_indextts_request testCfg false true 0 "我很开心" (some "me.wav")
        (some "custom.wav") none "20250101000000").audio_prompt = "me.wav" :=
  ⟨(synthesize_resolution_amended testCfg false true 0 "我很开心" none
      (some "custom.wav") none "20250101000000").1 rfl,
   (synthesize_resolution_amended testCfg false true 0 "我很开心" (some "me.wav")
      (some "custom.wav") none "20250101000000").2.1 "me.wav" rfl⟩

/-! ### Helper lemmas for the active-prompt invariant -/

theorem countActive_nil (U : Nat) : countActive [] U = 0 := rfl

theorem countActive_cons (p : SystemPromptRec) (l : List SystemPromptRec)
    (U : Nat) :
    countActive (p :: l) U =
      (if (p.user_id == U && p.is_active) = true then 1 else 0) +
        countActive l U := by
  unfold countActive
  rw [List.filter_cons]
  by_cases hp : (p.user_id == U && p.is_active) = true
  · rw [if_pos hp, if_pos hp, List.length_cons]
    omega
  · rw [if_neg hp, if_neg hp, Nat.zero_add]

theorem countActive_deactivateAll (l : List SystemPromptRec) (U : Nat) :
    countActive (deactivateAll l U) U = 0 := by
  induction l with
  | nil => rfl
  | cons p rest ih =>
      simp only [deactivateAll, List.map_cons] at *
      by_cases hu : (p.user_id == U) = true
      · rw [if_pos hu, countActive_cons]
        dsimp only
        rw [Bool.and_false, if_neg Bool.false_ne_true, Nat.zero_add]
        exact ih
      · have hu2 : (p.user_id == U) = false := by
          simpa using hu
        rw [if_neg hu, countActive_cons, hu2, Bool.false_and,
          if_neg Bool.false_ne_true, Nat.zero_add]
        exact ih

theorem any_deactivateAll (l : List SystemPromptRec) (U V P : Nat) :
    (deactivateAll l V).any (fun p => p.user_id == U && p.id == P) =
      l.any (fun p => p.user_id == U && p.id == P) := by
  induction l with
  | nil => rfl
  | cons p rest ih =>
      simp only [deactivateAll, List.map_cons, List.any_cons] at *
      rw [ih]
      by_cases hv : (p.user_id == V) = true
      · simp [hv]
      · simp only [Bool.not_eq_true] at hv
        simp [hv]

theorem countActive_activateFirst_le (l : List SystemPromptRec) (U P : Nat) :
    countActive (activateFirst l U P) U ≤ countActive l U + 1 := by
  induction l with
  | nil => exact Nat.le_succ 0
  | cons p rest ih =>
      rw [activateFirst]
      split
      · rw [countActive_cons, countActive_cons]
        split <;> split <;> omega
      · rw [countActive_cons, countActive_cons]
        split <;> omega

theorem countActive_deactivateAll_other (l : List SystemPromptRec) (U V : Nat)
    (h : (V == U) = false) :
    countActive (deactivateAll l V) U = countActive l U := by
  induction l with
  | nil => rfl
  | cons p rest ih =>
      simp only [deactivateAll, List.map_cons] at *
      rw [countActive_cons, countActive_cons, ih]
      by_cases hv : (p.user_id == V) = true
      · have hu : (p.user_id == U) = false := by
          have hv2 : p.user_id = V := by simpa using hv
          subst hv2
          exact h
        simp [hv, hu]
      · simp only [Bool.not_eq_true] at hv
        simp [hv]

theorem countActive_activateFirst_other (l : List SystemPromptRec)
    (U V P : Nat) (h : (V == U) = false) :
    countActive (activateFirst l V P) U = countActive l U := by
  induction l with
  | nil => rfl
  | cons p rest ih =>
      rw [activateFirst]
      split
      · rename_i hcond
        have hv : p.user_id = V := by
          have := hcond
          simp only [Bool.and_eq_true, beq_iff_eq] at this
          exact this.1
        rw [countActive_cons, countActive_cons]
        have hu : (p.user_id == U) = false := by
          rw [hv]
          exact h
        simp [hu]
      · rw [countActive_cons, countActive_cons, ih]

/-- After one `set_active_system_prompt` call the owner has at most one
active prompt, whatever the prior state. -/
theorem countActive_set_active_self (l : List SystemPromptRec) (U P : Nat) :
    countActive (set_active_system_prompt l U P).2 U ≤ 1 := by
  rw [set_active_system_prompt]
  split
  · dsimp only
    have h0 := countActive_deactivateAll l U
    have hle := countActive_activateFirst_le (deactivateAll l U) U P
    omega
  · dsimp only
    rw [countActive_deactivateAll]
    exact Nat.zero_le 1

/-- A `set_active_system_prompt` call by another owner does not change the
user's active count. -/
theorem countActive_set_active_other (l : List SystemPromptRec) (U V P : Nat)
    (h : (V == U) = false) :
    countActive (set_active_system_prompt l V P).2 U = countActive l U := by
  rw [set_active_system_prompt]
  split
  · dsimp only
    rw [countActive_activateFirst_other _ U V P h,
      countActive_deactivateAll_other _ U V h]
  · dsimp only
    rw [countActive_deactivateAll_other _ U V h]

theorem activateFirst_target_active (l : List SystemPromptRec) (U P : Nat)
    (h : l.any (fun p => p.user_id == U && p.id == P) = true) :
    (activateFirst l U P).any
      (fun p => p.user_id == U && p.id == P && p.is_active) = true := by
  induction l with
  | nil => simp at h
  | cons p rest ih =>
      rw [activateFirst]
      by_cases hp : (p.user_id == U && p.id == P) = true
      · rw [if_pos hp]
        simp only [List.any_cons]
        rw [Bool.and_true, hp, Bool.true_or]
      · have hp2 : (p.user_id == U && p.id == P) = false := by simpa using hp
        rw [if_neg hp]
        simp only [List.any_cons] at h ⊢
        rw [hp2, Bool.false_or] at h
        rw [hp2, Bool.false_and, Bool.false_or]
        exact ih h

theorem runSetActive_cons (l : List SystemPromptRec) (c : Nat × Nat)
    (rest : List (Nat × Nat)) :
    runSetActive l (c :: rest) =
      runSetActive (set_active_system_prompt l c.1 c.2).2 rest := rfl

theorem countActive_set_active_le (l : List SystemPromptRec) (U V P : Nat)
    (h : countActive l U ≤ 1) :
    countActive (set_active_system_prompt l V P).2 U ≤ 1 := by
  by_cases hv : (V == U) = true
  · have : V = U := by simpa using hv
    subst this
    exact countActive_set_active_self l V P
  · have hv2 : (V == U) = false := by simpa using hv
    rw [countActive_set_active_other l U V P hv2]
    exact h

theorem runSetActive_preserve (calls : List (Nat × Nat))
    (l : List SystemPromptRec) (U : Nat) (h : countActive l U ≤ 1) :
    countActive (runSetActive l calls) U ≤ 1 := by
  induction calls generalizing l with
  | nil => exact h
  | cons c rest ih =>
      rw [runSetActive_cons]
      exact ih _ (countActive_set_active_le l U c.1 c.2 h)

/-- C2: `set_active_system_prompt(U, P)` deactivates every prompt of `U` and
then activates `P` only when it resolves for `U` (when it returns `true` the
target is active in the committed state), returns `false` exactly when the
target does not resolve, leaves at most one active prompt for `U` after the
call, and after any sequence of such calls containing at least one call for
`U` the user `U` has at most one active prompt. -/
theorem set_active_at_most_one (l : List SystemPromptRec) (U P : Nat)
    (calls : List (Nat × Nat)) :
    countActive (set_active_system_prompt l U P).2 U ≤ 1 ∧
    ((set_active_system_prompt l U P).1 = false ↔
      l.any (fun p => p.user_id == U && p.id == P) = false) ∧
    ((set_active_system_prompt l U P).1 = true →
      (set_active_system_prompt l U P).2.any
        (fun p => p.user_id == U && p.id == P && p.is_active) = true) ∧
    (U ∈ calls.map Prod.fst → countActive (runSetActive l calls) U ≤ 1) := by
  refine ⟨countActive_set_active_self l U P, ?_, ?_, ?_⟩
  · rw [set_active_system_prompt]
    simp only [any_deactivateAll]
    by_cases hany : l.any (fun p => p.user_id == U && p.id == P) = true
    · rw [if_pos hany]
      simp [hany]
    · have h2 : l.any (fun p => p.user_id == U && p.id == P) = false := by
        simpa using hany
      rw [if_neg (by simp [h2])]
      simp [h2]
  · intro htrue
    have hany : l.any (fun p => p.user_id == U && p.id == P) = true := by
      by_contra hn
      have h2 : l.any (fun p => p.user_id == U && p.id == P) = false := by
        simpa using hn
      rw [set_active_system_prompt] at htrue
      rw [if_neg (by simp [any_deactivateAll, h2])] at htrue
      cases htrue
    have hany2 : (deactivateAll l U).any
        (fun p => p.user_id == U && p.id == P) = true := by
      rw [any_deactivateAll]
      exact hany
    rw [set_active_system_prompt, if_pos hany2]
    exact activateFirst_target_active (deactivateAll l U) U P hany2
  · intro hmem
    induction calls generalizing l with
    | nil => simp at hmem
    | cons c rest ih =>
        rw [runSetActive_cons]
        rw [List.map_cons, List.mem_cons] at hmem
        rcases hmem with hU | hU
        · subst hU
          exact runSetActive_preserve rest _ c.1
            (countActive_set_active_self l c.1 c.2)
        · exact ih _ hU

/-- Witness for the set-active theorem: two prompts of user 7, both active;
one call activates prompt 2 only, and a sequence of calls (including one for
user 7) leaves at most one active. -/
theorem set_active_at_most_one_witness :
    countActive (set_active_system_prompt
      [⟨1, 7, "a", "x", true⟩, ⟨2, 7, "b", "y", true⟩] 7 2).2 7 ≤ 1 ∧
    (set_active_system_prompt
      [⟨1, 7, "a", "x", true⟩, ⟨2, 7, "b", "y", true⟩] 7 2).2.any
      (fun p => p.user_id == 7 && p.id == 2 && p.is_active) = true ∧
    countActive (runSetActive
      [⟨1, 7, "a", "x", true⟩, ⟨2, 7, "b", "y", true⟩] [(8, 1), (7, 2)]) 7 ≤ 1 :=
  ⟨(set_active_at_most_one
      [⟨1, 7, "a", "x", true⟩, ⟨2, 7, "b", "y", true⟩] 7 2 [(8, 1), (7, 2)]).1,
   (set_active_at_most_one
      [⟨1, 7, "a", "x", true⟩, ⟨2, 7, "b", "y", true⟩] 7 2
      [(8, 1), (7, 2)]).2.2.1 (by decide),
   (set_active_at_most_one
      [⟨1, 7, "a", "x", true⟩, ⟨2, 7, "b", "y", true⟩] 7 2
      [(8, 1), (7, 2)]).2.2.2 (by decide)⟩

/-- C10: when the target prompt does not resolve for the user, the call
returns `false`, yet the deactivate-all phase is committed (the session
context manager commits on the normal exit of the `return False` path), so
the user ends with zero active prompts. -/
theorem set_active_unresolved_commits_deactivation
    (l : List SystemPromptRec) (U P : Nat)
    (h : l.any (fun p => p.user_id == U && p.id == P) = false) :
    (set_active_system_prompt l U P).1 = false ∧
    (set_active_system_prompt l U P).2 = deactivateAll l U ∧
    countActive (set_active_system_prompt l U P).2 U = 0 := by
  have hstep : set_active_system_prompt l U P = (false, deactivateAll l U) := by
    rw [set_active_system_prompt]
    rw [if_neg (by simp [any_deactivateAll, h])]
  rw [hstep]
  exact ⟨rfl, rfl, countActive_deactivateAll l U⟩

/-- Witness for the unresolved-target theorem: user 7 has an active prompt 1;
activating the non-existent prompt 99 returns `false` and leaves user 7 with
zero active prompts. -/
theorem set_active_unresolved_witness :
    (set_active_system_prompt [⟨1, 7, "a", "x", true⟩] 7 99).1 = false ∧
    (set_active_system_prompt [⟨1, 7, "a", "x", true⟩] 7 99).2 =
      deactivateAll [⟨1, 7, "a", "x", true⟩] 7 ∧
    countActive (set_active_system_prompt [⟨1, 7, "a", "x", true⟩] 7 99).2 7 = 0 :=
  set_active_unresolved_commits_deactivation
    [⟨1, 7, "a", "x", true⟩] 7 99 (by decide)

/-! ### Helper lemmas for the `/send` pipeline -/

theorem find_fresh_conversation (l : List Conversation) (N uid : Nat)
    (t s : Option String) (h : ∀ x ∈ l, (x.id == N) = false) :
    (l ++ [(⟨N, uid, t, s⟩ : Conversation)]).find?
      (fun x => x.id == N && x.user_id == uid) =
      some (⟨N, uid, t, s⟩ : Conversation) := by
  rw [List.find?_append]
  have h1 : l.find? (fun x => x.id == N && x.user_id == uid) = none := by
    rw [List.find?_eq_none]
    intro x hx
    rw [h x hx, Bool.false_and]
    exact Bool.false_ne_true
  rw [h1, Option.none_or]
  simp

theorem map_title_skip (l : List Conversation) (N : Nat) (T : String)
    (h : ∀ x ∈ l, (x.id == N) = false) :
    l.map (fun c => if c.id == N then { c with title := some T } else c) = l := by
  induction l with
  | nil => rfl
  | cons c rest ih =>
      rw [List.map_cons, if_neg (by rw [h c (by simp)]; exact Bool.false_ne_true)]
      rw [ih (fun x hx => h x (by simp [hx]))]

theorem filter_fresh_messages (l : List Message) (N : Nat)
    (h : ∀ m ∈ l, m.conversation_id < N) :
    l.filter (fun m => m.conversation_id == N) = [] := by
  rw [List.filter_eq_nil_iff]
  intro m hm
  have hlt := h m hm
  simp only [beq_iff_eq]
  omega

/-- Full computation of the `/send` pipeline on a fresh-conversation request:
one conversation is created, the user message and then the assistant message
are appended, and the route answers success with the new conversation id and
the assistant message id.  The title-derivation attempt between the two
appends fails on every input (the detached-instance update never persists and
its exception is swallowed), so the new conversation's title stays unset. -/
theorem send_message_none_eq (st : DBState) (uid : Nat) (msg : String)
    (sys : Option String) (reply : String) (h : st.wfb = true) :
    send_message st uid msg none sys reply =
      (.resp ⟨true, reply, some st.nextConvId, some (st.nextMsgId + 1), none⟩,
       ⟨st.conversations ++ [⟨st.nextConvId, uid, none, sys⟩],
        (st.messages ++ [⟨st.nextMsgId, st.nextConvId, "user", msg⟩]) ++
          [⟨st.nextMsgId + 1, st.nextConvId, "assistant", reply⟩],
        st.prompts, st.nextConvId + 1, st.nextMsgId + 2⟩) := by
  simp only [DBState.wfb, Bool.and_eq_true, List.all_eq_true,
    decide_eq_true_eq] at h
  obtain ⟨⟨hc, hm⟩, hmc⟩ := h
  have hids : ∀ x ∈ st.conversations, (x.id == st.nextConvId) = false := by
    intro x hx
    rw [beq_eq_false_iff_ne]
    exact Nat.ne_of_lt (hc x hx)
  have hcc : create_conversation st uid sys =
      (⟨st.nextConvId, uid, none, sys⟩,
       ⟨st.conversations ++ [⟨st.nextConvId, uid, none, sys⟩], st.messages,
        st.prompts, st.nextConvId + 1, st.nextMsgId⟩) := rfl
  have hget1 : get_conversation
      ⟨st.conversations ++ [⟨st.nextConvId, uid, none, sys⟩], st.messages,
       st.prompts, st.nextConvId + 1, st.nextMsgId⟩ st.nextConvId uid =
      some ⟨st.nextConvId, uid, none, sys⟩ :=
    find_fresh_conversation st.conversations st.nextConvId uid none sys hids
  have hadd1 : add_message
      ⟨st.conversations ++ [⟨st.nextConvId, uid, none, sys⟩], st.messages,
       st.prompts, st.nextConvId + 1, st.nextMsgId⟩ st.nextConvId uid msg
      "user" =
      .ok (⟨st.nextMsgId, st.nextConvId, "user", msg⟩,
        ⟨st.conversations ++ [⟨st.nextConvId, uid, none, sys⟩],
         st.messages ++ [⟨st.nextMsgId, st.nextConvId, "user", msg⟩],
         st.prompts, st.nextConvId + 1, st.nextMsgId + 1⟩) := by
    simp only [add_message, hget1]
  have hget2 : get_conversation
      ⟨st.conversations ++ [⟨st.nextConvId, uid, none, sys⟩],
       st.messages ++ [⟨st.nextMsgId, st.nextConvId, "user", msg⟩],
       st.prompts, st.nextConvId + 1, st.nextMsgId + 1⟩ st.nextConvId uid =
      some ⟨st.nextConvId, uid, none, sys⟩ :=
    find_fresh_conversation st.conversations st.nextConvId uid none sys hids
  have hupd : update_conversation_title
      ⟨st.conversations ++ [⟨st.nextConvId, uid, none, sys⟩],
       st.messages ++ [⟨st.nextMsgId, st.nextConvId, "user", msg⟩],
       st.prompts, st.nextConvId + 1, st.nextMsgId + 1⟩ st.nextConvId uid
      (generate_conversation_title msg) =
      Except.error
        "InvalidRequestError: Instance is not persistent within this Session" := by
    simp only [update_conversation_title, hget2]
  have htitle : titleStep
      ⟨st.conversations ++ [⟨st.nextConvId, uid, none, sys⟩],
       st.messages ++ [⟨st.nextMsgId, st.nextConvId, "user", msg⟩],
       st.prompts, st.nextConvId + 1, st.nextMsgId + 1⟩ st.nextConvId uid msg =
      ⟨st.conversations ++ [⟨st.nextConvId, uid, none, sys⟩],
       st.messages ++ [⟨st.nextMsgId, st.nextConvId, "user", msg⟩],
       st.prompts, st.nextConvId + 1, st.nextMsgId + 1⟩ := by
    simp only [titleStep, hget2, hupd]
    rw [if_pos (by decide)]
  have hadd2 : add_message
      ⟨st.conversations ++ [⟨st.nextConvId, uid, none, sys⟩],
       st.messages ++ [⟨st.nextMsgId, st.nextConvId, "user", msg⟩],
       st.prompts, st.nextConvId + 1, st.nextMsgId + 1⟩ st.nextConvId uid
      reply "assistant" =
      .ok (⟨st.nextMsgId + 1, st.nextConvId, "assistant", reply⟩,
        ⟨st.conversations ++ [⟨st.nextConvId, uid, none, sys⟩],
         (st.messages ++ [⟨st.nextMsgId, st.nextConvId, "user", msg⟩]) ++
           [⟨st.nextMsgId + 1, st.nextConvId, "assistant", reply⟩],
         st.prompts, st.nextConvId + 1, st.nextMsgId + 2⟩) := by
    simp only [add_message, hget2]
  simp only [send_message, hcc, hadd1, htitle, hadd2]

/-- C1: the `/send` pipeline with no conversation id creates exactly one new
conversation for the user and persists exactly two messages in it — the user
message first and the assistant message second, in creation order (their ids
are consecutive, in insertion order) — and reports success with the new
conversation's id.  (The title-derivation attempt on the fresh conversation
always fails and is swallowed, so the stored title stays unset.) -/
theorem send_new_conversation_two_messages (st : DBState) (uid : Nat)
    (msg : String) (sys : Option String) (reply : String)
    (h : st.wfb = true) :
    (send_message st uid msg none sys reply).1 =
      .resp ⟨true, reply, some st.nextConvId, some (st.nextMsgId + 1), none⟩ ∧
    (send_message st uid msg none sys reply).2.conversations =
      st.conversations ++ [⟨st.nextConvId, uid, none, sys⟩] ∧
    (send_message st uid msg none sys reply).2.messages =
      st.messages ++ [⟨st.nextMsgId, st.nextConvId, "user", msg⟩,
        ⟨st.nextMsgId + 1, st.nextConvId, "assistant", reply⟩] ∧
    (send_message st uid msg none sys reply).2.messages.filter
      (fun m => m.conversation_id == st.nextConvId) =
      [⟨st.nextMsgId, st.nextConvId, "user", msg⟩,
       ⟨st.nextMsgId + 1, st.nextConvId, "assistant", reply⟩] := by
  have hwf := h
  simp only [DBState.wfb, Bool.and_eq_true, List.all_eq_true,
    decide_eq_true_eq] at hwf
  obtain ⟨⟨hc, hm⟩, hmc⟩ := hwf
  rw [send_message_none_eq st uid msg sys reply h]
  refine ⟨rfl, rfl, ?_, ?_⟩
  · rw [List.append_assoc]
    rfl
  · rw [List.filter_append, List.filter_append,
      filter_fresh_messages st.messages st.nextConvId hmc]
    simp

/-- Witness for the `/send` theorem: an empty store; the pipeline creates
conversation 0 (title unset) holding messages 0 (user) and 1 (assistant). -/
theorem send_new_conversation_witness :
    (send_message ⟨[], [], [], 0, 0⟩ 1 "你好" none none "回复").1 =
      .resp ⟨true, "回复", some 0, some 1, none⟩ ∧
    (send_message ⟨[], [], [], 0, 0⟩ 1 "你好" none none "回复").2.conversations =
      [] ++ [⟨0, 1, none, none⟩] ∧
    (send_message ⟨[], [], [], 0, 0⟩ 1 "你好" none none "回复").2.messages =
      [] ++ [⟨0, 0, "user", "你好"⟩, ⟨1, 0, "assistant", "回复"⟩] ∧
    (send_message ⟨[], [], [], 0, 0⟩ 1 "你好" none none "回复").2.messages.filter
      (fun m => m.conversation_id == 0) =
      [⟨0, 0, "user", "你好"⟩, ⟨1, 0, "assistant", "回复"⟩] :=
  send_new_conversation_two_messages ⟨[], [], [], 0, 0⟩ 1 "你好" none "回复"
    (by decide)

end AIAgentSpec
